import Mathlib

/-!
Shallow embedding of the core of src/app.py from the tmnf-leaderboard
repository: the GBXRemote RPC client (`gbx_call` and its inner `call`
coroutine, lines 39-79) and the background status poller
(`poll_server_status`, lines 82-113), together with the
`strip_tm_formatting` helper used by the poller (lines 164-166).

Conventions of the embedding:
* machine integers read off the wire are `Nat` with the little-endian
  decoding written out explicitly;
* the server side of one `gbx_call` invocation is modelled as a script of
  events answering the client's blocking operations in order;
* Python exceptions are modelled as explicit outcome constructors;
* an `await` on an operation that is not wrapped in `asyncio.wait_for`
  and whose peer stalls forever is modelled as the distinguished `hang`
  outcome;
* every `time.time()` call made within one poller tick is modelled as the
  same rational instant `now`, and Python floats as exact rationals.
-/

namespace TLB

/-- XML-RPC value domain exchanged with the game server (strings, integers,
booleans, flat structs), as produced by `xmlrpc.client.loads`. -/
inductive Value where
  | vStr : String → Value
  | vInt : Int → Value
  | vBool : Bool → Value
  | vStruct : List (String × Value) → Value

/-- Abstract result of running `xmlrpc.client.loads` on the envelope bytes of
a frame payload (the bytes after the first four, UTF-8 decoded): `loads`
returns a parameter tuple on success (possibly empty, whence
`result[0] if result else None`), raises `xmlrpc.client.Fault` on a
well-formed fault envelope, and raises a parse/decode exception on malformed
bytes (including a UTF-8 decode failure). -/
inductive Envelope where
  | success : Value → Envelope
  | emptyResp : Envelope
  | fault : Int → String → Envelope
  | malformed : Envelope

/-- One iteration of the response-reading loop performs two reads: 4 length
bytes under `asyncio.wait_for(..., timeout=3)`, then the payload of that
length, also under a 3-second `wait_for`.  A `ReadEv` is the server's answer
to one such iteration:
* `frame b0 b1 b2 b3 env`: both reads succeed, the payload is at least 4
  bytes long, its first four bytes are `b0 b1 b2 b3`, and its remainder
  decodes as `env`;
* `shortPayload`: both reads succeed but the payload is shorter than 4
  bytes, so `struct.unpack("<I", resp_data[:4])` raises `struct.error`;
* `lenTimeout` / `payloadTimeout`: the guarded read exceeds its 3-second
  deadline, raising `TimeoutError`;
* `lenEof` / `payloadEof`: the connection closes mid-read, so
  `readexactly` raises `IncompleteReadError`. -/
inductive ReadEv where
  | frame : Nat → Nat → Nat → Nat → Envelope → ReadEv
  | shortPayload : ReadEv
  | lenTimeout : ReadEv
  | lenEof : ReadEv
  | payloadTimeout : ReadEv
  | payloadEof : ReadEv

/-- Little-endian decoding of four bytes, as done by
`struct.unpack("<I", ...)` on `resp_data[:4]` (line 68). -/
def le32 (b0 b1 b2 b3 : Nat) : Nat :=
  b0 + 256 * b1 + 65536 * b2 + 16777216 * b3

/-- The Python exception kinds that can abort one `gbx_call` invocation;
all are caught by the blanket `except Exception` at line 78.  `appFault`
carries the fault code and fault string of an `xmlrpc.client.Fault`. -/
inductive ExnKind where
  | connectRefused : ExnKind
  | connectTimeout : ExnKind
  | hsLenTimeout : ExnKind
  | hsLenEof : ExnKind
  | bannerEof : ExnKind
  | drainErr : ExnKind
  | respLenTimeout : ExnKind
  | respLenEof : ExnKind
  | respPayloadTimeout : ExnKind
  | respPayloadEof : ExnKind
  | structError : ExnKind
  | decodeError : ExnKind
  | appFault : Int → String → ExnKind

/-- Outcome of the `for _ in range(10)` response loop of the inner `call`
(lines 61-72): a normal return of a decoded value (`found`), a normal
return of `None` after consuming ten frames without a genuine response
(`budget`), or a raised exception (`exn`). -/
inductive LoopRes where
  | found : Option Value → LoopRes
  | budget : LoopRes
  | exn : ExnKind → LoopRes

/-- Effect of `result, _ = xmlrpc.client.loads(...)` followed by
`return result[0] if result else None` (lines 70-71) on each envelope kind. -/
def envResult : Envelope → LoopRes
  | .success v => .found (some v)
  | .emptyResp => .found none
  | .fault c m => .exn (.appFault c m)
  | .malformed => .exn .decodeError

/-- The response-reading loop of the inner `call` (lines 61-72), over a
stream of read events.  Each iteration consumes one event; a frame whose
first four payload bytes decode (little-endian) to at least `0x80000000` is
taken as the genuine response ("Response, not callback", line 69) and its
envelope decoded; any other frame is discarded and the loop continues.  When
the loop header `for _ in range(10)` is exhausted the function returns
`None` (line 72).  An empty stream means the server closed the connection,
so the next 4-byte length read raises `IncompleteReadError`.  Returns the
loop outcome together with the unconsumed remainder of the stream. -/
def runCallLoop : Nat → List ReadEv → LoopRes × List ReadEv
  | 0, evs => (.budget, evs)
  | _ + 1, [] => (.exn .respLenEof, [])
  | n + 1, ev :: rest =>
    match ev with
    | .frame b0 b1 b2 b3 env =>
      if 0x80000000 ≤ le32 b0 b1 b2 b3 then (envResult env, rest)
      else runCallLoop n rest
    | .shortPayload => (.exn .structError, rest)
    | .lenTimeout => (.exn .respLenTimeout, rest)
    | .lenEof => (.exn .respLenEof, rest)
    | .payloadTimeout => (.exn .respPayloadTimeout, rest)
    | .payloadEof => (.exn .respPayloadEof, rest)

/-- A read event that the loop discards and skips past: a complete frame
whose correlation value lies below `0x80000000` (a server callback). -/
def isNotif : ReadEv → Bool
  | .frame b0 b1 b2 b3 _ => decide (le32 b0 b1 b2 b3 < 0x80000000)
  | _ => false

theorem runCallLoop_skip (notifs : List ReadEv)
    (h : ∀ e ∈ notifs, isNotif e = true) (m : Nat) (tail : List ReadEv) :
    runCallLoop (notifs.length + m) (notifs ++ tail) = runCallLoop m tail := by
  induction notifs with
  | nil => simp
  | cons e es ih =>
    have he : isNotif e = true := h e (List.mem_cons_self e es)
    have hes : ∀ x ∈ es, isNotif x = true := fun x hx => h x (List.mem_cons_of_mem e hx)
    cases e with
    | frame b0 b1 b2 b3 env =>
      have hlt : le32 b0 b1 b2 b3 < 0x80000000 := by
        simpa [isNotif] using he
      have hfuel : (ReadEv.frame b0 b1 b2 b3 env :: es).length + m
          = (es.length + m) + 1 := by
        simp [Nat.succ_add]
      rw [hfuel]
      simp only [List.cons_append, runCallLoop]
      rw [if_neg (by omega)]
      exact ih hes
    | shortPayload => simp [isNotif] at he
    | lenTimeout => simp [isNotif] at he
    | lenEof => simp [isNotif] at he
    | payloadTimeout => simp [isNotif] at he
    | payloadEof => simp [isNotif] at he

/-- Server's answer to `asyncio.wait_for(asyncio.open_connection(...), timeout=3)`
(lines 42-44): connection established, connection refused (an `OSError`), or
no answer within the deadline, which the `wait_for` turns into
`TimeoutError`. -/
inductive ConnEv where
  | ok : ConnEv
  | refused : ConnEv
  | stalled : ConnEv

/-- Server's answer to the handshake length read
`asyncio.wait_for(reader.readexactly(4), timeout=3)` (line 46): the four
size bytes arrive, the read times out, or the connection closes short. -/
inductive HsLenEv where
  | ok : HsLenEv
  | timeout : HsLenEv
  | eof : HsLenEv

/-- Server's answer to the handshake banner read
`await reader.readexactly(size)` (line 48).  This read is NOT wrapped in
`asyncio.wait_for`, so a peer that stalls forever makes the coroutine block
forever (`stalled`); a short read raises `IncompleteReadError`. -/
inductive BannerEv where
  | ok : BannerEv
  | eof : BannerEv
  | stalled : BannerEv

/-- Server/network answer to `await writer.drain()` (line 58).  The drain is
NOT wrapped in `asyncio.wait_for`: a peer that never relieves backpressure
makes the coroutine block forever (`stalled`); a reset connection raises
(`err`). -/
inductive DrainEv where
  | ok : DrainEv
  | err : DrainEv
  | stalled : DrainEv

/-- One server-side script for a whole `gbx_call` invocation: answers to the
connect, the two handshake reads, the drain of each of the two issued calls
(`Authenticate`, then the requested method), and the stream of read events
consumed by the two response loops in order. -/
structure Script where
  conn : ConnEv
  hsLen : HsLenEv
  banner : BannerEv
  drain1 : DrainEv
  drain2 : DrainEv
  reads : List ReadEv

/-- A failure of one `gbx_call` invocation: a raised (and caught) Python
exception, or the requested method's response loop exhausting its ten-frame
budget and returning `None`. -/
inductive FailKind where
  | exn : ExnKind → FailKind
  | budget : FailKind

/-- Observable outcome of one `gbx_call` invocation, instrumented with ghost
data for the specification: the value returned to the caller (`none` is
Python's `None`, the "unavailable" result), whether `writer.close()`
(line 76) was executed, and which failure, if any, occurred.  `hang` is the
outcome of blocking forever in an unguarded `await`. -/
inductive GRun where
  | hang : GRun
  | done : Option Value → Bool → Option FailKind → GRun

/-- The requested method's call: `await writer.drain()` (line 58) then the
response loop.  On a normal loop return, execution continues to
`writer.close()` (line 76), so `closed` is true both when a response was
decoded and when the frame budget was exhausted; a raised exception
propagates to `except Exception: return None` (lines 78-79) without closing. -/
def finishMain (d2 : DrainEv) (rest : List ReadEv) : GRun :=
  match d2 with
  | .stalled => .hang
  | .err => .done none false (some (.exn .drainErr))
  | .ok =>
    match runCallLoop 10 rest with
    | (.exn k, _) => .done none false (some (.exn k))
    | (.budget, _) => .done none true (some .budget)
    | (.found v, _) => .done v true none

/-- Execution after a successful handshake: `await call("Authenticate", ...)`
(line 74) then `result = await call(method, *args)` (line 75).  The
`Authenticate` result is discarded, so even a budget-exhausted (`None`)
authentication falls through to the requested method; only a raised
exception aborts. -/
def afterBanner (d1 d2 : DrainEv) (reads : List ReadEv) : GRun :=
  match d1 with
  | .stalled => .hang
  | .err => .done none false (some (.exn .drainErr))
  | .ok =>
    match runCallLoop 10 reads with
    | (.exn k, _) => .done none false (some (.exn k))
    | (.found _, rest) => finishMain d2 rest
    | (.budget, rest) => finishMain d2 rest

/-- The whole `gbx_call` invocation (lines 39-79) run against a server
script: guarded connect, guarded handshake length read, unguarded banner
read, the two calls, then `writer.close(); return result`.  Every raised
exception is caught by `except Exception: return None` (lines 78-79), which
does not close the socket. -/
def runGbx (s : Script) : GRun :=
  match s.conn with
  | .refused => .done none false (some (.exn .connectRefused))
  | .stalled => .done none false (some (.exn .connectTimeout))
  | .ok =>
    match s.hsLen with
    | .timeout => .done none false (some (.exn .hsLenTimeout))
    | .eof => .done none false (some (.exn .hsLenEof))
    | .ok =>
      match s.banner with
      | .stalled => .hang
      | .eof => .done none false (some (.exn .bannerEof))
      | .ok => afterBanner s.drain1 s.drain2 s.reads

/-- The call-identifier counter of one session after `n` issued calls:
seeded `handle = 0x80000001` (line 50) and incremented by the `handle += 1`
executed by each `call` (line 54). -/
def handleAfter : Nat → Nat
  | 0 => 0x80000001
  | n + 1 => handleAfter n + 1

/-- The identifier placed in the request frame of the `n`-th issued call
(0-indexed): `call` increments `handle` before packing it into the header
(lines 54-56), so call `n` carries the counter value after `n + 1`
increments. -/
def idOfCall (n : Nat) : Nat := handleAfter (n + 1)

theorem handleAfter_closed (n : Nat) : handleAfter n = 0x80000001 + n := by
  induction n with
  | zero => rfl
  | succ k ih => simp [handleAfter, ih]; omega

/-- A character matched by the regex class `[0-9a-fA-F]` (line 166). -/
def isHexDigit (c : Char) : Bool :=
  (decide ('0' ≤ c) && decide (c ≤ '9')) ||
  (decide ('a' ≤ c) && decide (c ≤ 'f')) ||
  (decide ('A' ≤ c) && decide (c ≤ 'F'))

/-- Whether the first regex alternative `[0-9a-fA-F]{3}` matches at the
position after the `$`: the next character `a` and the two following ones
are hex digits. -/
def threeHex (a : Char) (tail : List Char) : Bool :=
  match tail with
  | b :: d :: _ => isHexDigit a && isHexDigit b && isHexDigit d
  | _ => false

/-- Lazy scan of `.*?\]`: the suffix after the first `]`, failing if a
newline (which `.` does not match) or the end of input comes first. -/
def findClose : List Char → Option (List Char)
  | [] => none
  | c :: rest =>
    if c = ']' then some rest
    else if c = Char.ofNat 10 then none
    else findClose rest

/-- One pass of `re.sub(r"$([0-9a-fA-F]{3}|[lh]\[.*?\]|[lh]|.)", "", text)`
(line 166, the `$` escaped in the actual source), scanning left to right and
deleting each leftmost match, with the alternatives tried in order: three
hex digits; `l` or `h` followed by a lazily-closed bracket group; a bare `l`
or `h`; any single character other than newline.  A `$` that matches no
alternative (at end of input or before a newline) is kept.  Structural fuel
(the list length suffices) keeps the recursion elementary. -/
def stripStep : Nat → List Char → List Char
  | 0, l => l
  | _ + 1, [] => []
  | f + 1, c :: rest =>
    if c = '$' then
      match rest with
      | [] => ['$']
      | a :: tail =>
        if threeHex a tail then stripStep f (tail.drop 2)
        else if a = 'l' || a = 'h' then
          match tail with
          | '[' :: afterBr =>
            match findClose afterBr with
            | some s => stripStep f s
            | none => stripStep f tail
          | _ => stripStep f tail
        else if a = Char.ofNat 10 then '$' :: stripStep f rest
        else stripStep f tail
    else c :: stripStep f rest

/-- `strip_tm_formatting` (lines 164-166). -/
def stripTmFormatting (s : String) : String :=
  String.mk (stripStep s.data.length s.data)

/-- Python `int()` applied to a non-integral number: truncation toward
zero, i.e. T-division of the numerator by the denominator. -/
def pyTrunc (q : ℚ) : Int := Int.tdiv q.num (Int.ofNat q.den)

/-- The fields of the dict returned by `GetCurrentChallengeInfo` /
`GetNextChallengeInfo` that the poller reads via `.get` with a default
(lines 92, 102, 104): a missing key yields the default. -/
structure ChallengeInfo where
  uidField : Option String
  nameField : Option String

/-- The field of the dict returned by `GetCurrentGameInfo` that the poller
reads (line 97): `game_info.get("TimeAttackLimit", 0)`, in milliseconds. -/
structure GameInfo where
  timeAttackLimitField : Option Int

/-- The poller's private mutable state: the module globals `_last_map_uid`
(initially `""`) and `_map_start_time` (initially `0`), lines 35-36. -/
structure PollState where
  lastMapUid : String
  mapStartTime : ℚ

/-- The published `server_status` dict.  The source assigns it exactly two
shapes: the four-key literal of lines 101-108 (all fields present) and the
empty dict `{}` (lines 110, 112); each field is `Option` so that the
all-or-nothing shape is a provable property rather than a typing artifact. -/
structure StatusDict where
  current_map : Option String
  next_map : Option String
  time_remaining : Option Int
  time_limit : Option Int

/-- The canonical empty snapshot, Python's `{}`. -/
def emptyStatus : StatusDict := ⟨none, none, none, none⟩

/-- Input to one poller tick: the three `gbx_call` results (`none` is the
"unavailable" `None`), whether some step of the tick body raised an
exception caught by `except Exception` at line 111 (e.g. an RPC result that
is not a mapping), and the tick's instant `now` standing for every
`time.time()` call of the tick. -/
structure TickIn where
  current : Option ChallengeInfo
  nextMap : Option ChallengeInfo
  gameInfo : Option GameInfo
  exc : Bool
  now : ℚ

/-- One iteration of the `while True` body of `poll_server_status`
(lines 86-112): if the current-map and game-info results are both truthy,
update the map-change state (lines 92-95), derive the timing fields
(lines 97-99) and publish the four-key snapshot (lines 101-108); otherwise
publish `{}` (line 110); if a step raised, publish `{}` (line 112).  The
modelled exception stands for one raised before the state update of
lines 93-95, the only raise site reachable with well-typed fields.  Returns
the new poller state and the published snapshot. -/
def pollTick (st : PollState) (t : TickIn) : PollState × StatusDict :=
  if t.exc then (st, emptyStatus)
  else
    match t.current, t.gameInfo with
    | some cur, some gi =>
      let uid := cur.uidField.getD ""
      let st' : PollState := if uid ≠ st.lastMapUid then ⟨uid, t.now⟩ else st
      let taLimit : ℚ := ((gi.timeAttackLimitField.getD 0 : Int) : ℚ) / 1000
      let elapsed : ℚ := if st'.mapStartTime ≠ 0 then t.now - st'.mapStartTime else 0
      let remaining : ℚ := max 0 (taLimit - elapsed)
      (st',
        { current_map := some (stripTmFormatting (cur.nameField.getD ""))
          next_map := some (match t.nextMap with
            | some nm => stripTmFormatting (nm.nameField.getD "")
            | none => "")
          time_remaining := some (pyTrunc remaining)
          time_limit := some (pyTrunc taLimit) })
    | _, _ => (st, emptyStatus)

/-- A run of consecutive poller ticks from a given state and previously
published snapshot: each tick's snapshot overwrites the previous one
(`server_status = ...` assigns the module global unconditionally). -/
def pollSteps : PollState → StatusDict → List TickIn → PollState × StatusDict
  | st, status, [] => (st, status)
  | st, _, t :: ts =>
    let p := pollTick st t
    pollSteps p.1 p.2 ts

theorem pollSteps_append (st : PollState) (status : StatusDict)
    (ts : List TickIn) (t : TickIn) :
    pollSteps st status (ts ++ [t])
      = pollTick (pollSteps st status ts).1 t := by
  induction ts generalizing st status with
  | nil => simp [pollSteps]
  | cons u us ih => simp [pollSteps, ih]

/-- The exception kinds that are transport-level failures of the response
read: a timed-out read, a short read, or malformed envelope bytes. -/
def transportFailure : ExnKind → Bool
  | .respLenTimeout => true
  | .respLenEof => true
  | .respPayloadTimeout => true
  | .respPayloadEof => true
  | .structError => true
  | .decodeError => true
  | _ => false

/-- C1: while awaiting a call's response, a frame is treated as the genuine
response exactly when the little-endian value of its first four payload
bytes is at least `0x80000000`; a frame below that range is discarded and
reading continues.  The loop takes no note of the identifier of the request
just sent: the acceptance condition quantifies over every correlation value
in the range, equal to the session's current handle or not. -/
theorem response_range_discriminator (b0 b1 b2 b3 : Nat) (env : Envelope)
    (rest : List ReadEv) (n : Nat) :
    (0x80000000 ≤ le32 b0 b1 b2 b3 →
      runCallLoop (n + 1) (ReadEv.frame b0 b1 b2 b3 env :: rest)
        = (envResult env, rest))
    ∧ (le32 b0 b1 b2 b3 < 0x80000000 →
      runCallLoop (n + 1) (ReadEv.frame b0 b1 b2 b3 env :: rest)
        = runCallLoop n rest) := by
  constructor
  · intro h
    simp only [runCallLoop]
    rw [if_pos h]
  · intro h
    simp only [runCallLoop]
    rw [if_neg (by omega)]

/-- Witness for C1: a frame with correlation value `0x90000000` (unequal to
every identifier the session ever sends) is accepted as the response, and a
frame with correlation value `1` is skipped. -/
theorem response_range_discriminator_witness :
    (0x80000000 ≤ le32 0 0 0 144
      ∧ runCallLoop (9 + 1)
          (ReadEv.frame 0 0 0 144 (Envelope.success (Value.vInt 7)) :: [])
          = (envResult (Envelope.success (Value.vInt 7)), []))
    ∧ (le32 1 0 0 0 < 0x80000000
      ∧ runCallLoop (9 + 1) (ReadEv.frame 1 0 0 0 Envelope.malformed :: [])
          = runCallLoop 9 []) :=
  ⟨⟨by decide,
    (response_range_discriminator 0 0 0 144 (Envelope.success (Value.vInt 7)) [] 9).1
      (by decide)⟩,
   ⟨by decide,
    (response_range_discriminator 1 0 0 0 Envelope.malformed [] 9).2 (by decide)⟩⟩

/-- C2: the response loop consumes at most ten frames.  If `N ≤ 9`
notification frames precede the genuine response, the call returns the
decoded value having consumed exactly `N + 1` frames (the remainder of the
stream is untouched); if ten consecutive notification frames arrive, the
call returns no result without reading further. -/
theorem frame_budget_behavior (notifs : List ReadEv)
    (hlen : notifs.length ≤ 9) (hall : ∀ e ∈ notifs, isNotif e = true)
    (b0 b1 b2 b3 : Nat) (hresp : 0x80000000 ≤ le32 b0 b1 b2 b3)
    (v : Value) (rest : List ReadEv)
    (tens : List ReadEv) (hlen10 : tens.length = 10)
    (hall10 : ∀ e ∈ tens, isNotif e = true) (rest2 : List ReadEv) :
    runCallLoop 10
        (notifs ++ ReadEv.frame b0 b1 b2 b3 (Envelope.success v) :: rest)
      = (LoopRes.found (some v), rest)
    ∧ runCallLoop 10 (tens ++ rest2) = (LoopRes.budget, rest2) := by
  constructor
  · obtain ⟨m, hm⟩ : ∃ m, 10 - notifs.length = m + 1 :=
      ⟨9 - notifs.length, by omega⟩
    have h10 : (10 : Nat) = notifs.length + (m + 1) := by omega
    rw [h10, runCallLoop_skip notifs hall]
    simp only [runCallLoop]
    rw [if_pos hresp]
    rfl
  · have h10 : (10 : Nat) = tens.length + 0 := by omega
    rw [h10, runCallLoop_skip tens hall10]
    rfl

/-- Witness for C2: two notifications before the response give the decoded
value with exactly three frames consumed; ten notifications give the
no-result outcome with the eleventh event unread. -/
theorem frame_budget_behavior_witness :
    ([ReadEv.frame 1 0 0 0 Envelope.malformed,
      ReadEv.frame 2 0 0 0 Envelope.malformed].length ≤ 9)
    ∧ (List.replicate 10 (ReadEv.frame 3 0 0 0 Envelope.malformed)).length = 10
    ∧ runCallLoop 10
        ([ReadEv.frame 1 0 0 0 Envelope.malformed,
          ReadEv.frame 2 0 0 0 Envelope.malformed]
          ++ ReadEv.frame 0 0 0 128 (Envelope.success (Value.vBool true))
            :: [ReadEv.lenEof])
        = (LoopRes.found (some (Value.vBool true)), [ReadEv.lenEof])
    ∧ runCallLoop 10
        (List.replicate 10 (ReadEv.frame 3 0 0 0 Envelope.malformed)
          ++ [ReadEv.lenEof])
        = (LoopRes.budget, [ReadEv.lenEof]) :=
  ⟨by decide, by decide,
   (frame_budget_behavior
      [ReadEv.frame 1 0 0 0 Envelope.malformed,
       ReadEv.frame 2 0 0 0 Envelope.malformed]
      (by decide) (by decide) 0 0 0 128 (by decide) (Value.vBool true)
      [ReadEv.lenEof]
      (List.replicate 10 (ReadEv.frame 3 0 0 0 Envelope.malformed))
      (by decide) (by decide) [ReadEv.lenEof]).1,
   (frame_budget_behavior
      [ReadEv.frame 1 0 0 0 Envelope.malformed,
       ReadEv.frame 2 0 0 0 Envelope.malformed]
      (by decide) (by decide) 0 0 0 128 (by decide) (Value.vBool true)
      [ReadEv.lenEof]
      (List.replicate 10 (ReadEv.frame 3 0 0 0 Envelope.malformed))
      (by decide) (by decide) [ReadEv.lenEof]).2⟩

/-- C9: decoding a frame that carries a well-formed fault envelope yields a
distinct outcome carrying the fault's code and message — an
`xmlrpc.client.Fault`, raised only after every transport-level read of the
frame succeeded — and that outcome differs from every transport-level
failure (timed-out read, short read, malformed bytes), so the caller of the
decode step can tell them apart. -/
theorem fault_outcome_distinct (code : Int) (msg : String)
    (b0 b1 b2 b3 : Nat) (rest : List ReadEv) (n : Nat)
    (h : 0x80000000 ≤ le32 b0 b1 b2 b3) :
    runCallLoop (n + 1) (ReadEv.frame b0 b1 b2 b3 (Envelope.fault code msg) :: rest)
      = (LoopRes.exn (ExnKind.appFault code msg), rest)
    ∧ (∀ k, transportFailure k = true → ExnKind.appFault code msg ≠ k) := by
  constructor
  · simp only [runCallLoop]
    rw [if_pos h]
    rfl
  · intro k hk
    cases k <;> simp_all [transportFailure]

/-- Witness for C9: a concrete fault envelope with code 42. -/
theorem fault_outcome_distinct_witness :
    (0x80000000 ≤ le32 0 0 0 128)
    ∧ runCallLoop (0 + 1)
        (ReadEv.frame 0 0 0 128 (Envelope.fault 42 ("boom")) :: [])
        = (LoopRes.exn (ExnKind.appFault 42 ("boom")), [])
    ∧ (∀ k, transportFailure k = true → ExnKind.appFault 42 ("boom") ≠ k) :=
  ⟨by decide,
   (fault_outcome_distinct 42 ("boom") 0 0 0 128 [] 0 (by decide)).1,
   (fault_outcome_distinct 42 ("boom") 0 0 0 128 [] 0 (by decide)).2⟩

/-- C5: the call-identifier counter is seeded at `0x80000001`, incremented
exactly once per issued call, and the identifiers placed in request frames
are strictly increasing, hence never reused, within one session. -/
theorem call_ids_strictly_increasing :
    handleAfter 0 = 0x80000001
    ∧ (∀ n, handleAfter (n + 1) = handleAfter n + 1)
    ∧ (∀ i j, i < j → idOfCall i < idOfCall j)
    ∧ (∀ i j, idOfCall i = idOfCall j → i = j) := by
  refine ⟨rfl, fun n => rfl, ?_, ?_⟩
  · intro i j hij
    simp only [idOfCall, handleAfter_closed]
    omega
  · intro i j hij
    simp only [idOfCall, handleAfter_closed] at hij
    omega

/-- Witness for C5: the first two issued calls carry identifiers
`0x80000002 < 0x80000003`. -/
theorem call_ids_strictly_increasing_witness :
    (0 < 1 ∧ idOfCall 0 < idOfCall 1) ∧ idOfCall 0 = 0x80000002 :=
  ⟨⟨by decide, call_ids_strictly_increasing.2.2.1 0 1 (by decide)⟩, by decide⟩

theorem finishMain_unavailable (d2 : DrainEv) (rest : List ReadEv)
    (v : Option Value) (c : Bool) (k : FailKind)
    (h : finishMain d2 rest = GRun.done v c (some k)) : v = none := by
  cases d2 with
  | stalled => simp [finishMain] at h
  | err =>
    simp only [finishMain] at h
    cases h
    rfl
  | ok =>
    simp only [finishMain] at h
    rcases hl : runCallLoop 10 rest with ⟨lr, r⟩
    rw [hl] at h
    cases lr with
    | found w => cases h
    | budget => cases h; rfl
    | exn k2 => cases h; rfl

theorem afterBanner_unavailable (d1 d2 : DrainEv) (reads : List ReadEv)
    (v : Option Value) (c : Bool) (k : FailKind)
    (h : afterBanner d1 d2 reads = GRun.done v c (some k)) : v = none := by
  cases d1 with
  | stalled => simp [afterBanner] at h
  | err =>
    simp only [afterBanner] at h
    cases h
    rfl
  | ok =>
    simp only [afterBanner] at h
    rcases hl : runCallLoop 10 reads with ⟨lr, rest⟩
    rw [hl] at h
    cases lr with
    | found w => exact finishMain_unavailable d2 rest v c k h
    | budget => exact finishMain_unavailable d2 rest v c k h
    | exn k2 => cases h; rfl

/-- C4: whatever the method, arguments and failure mode (connection failure,
handshake failure, timeout, short read, malformed envelope, server-reported
fault, or exhausted ten-frame budget), `gbx_call` returns the single
distinguished `None`; the returned value carries no information about which
failure occurred.  The method and argument list never influence the
client-side control flow, so the embedding quantifies over the server
script alone. -/
theorem failures_collapse_to_unavailable (s : Script) (v : Option Value)
    (c : Bool) (k : FailKind) (h : runGbx s = GRun.done v c (some k)) :
    v = none := by
  obtain ⟨conn, hsLen, banner, d1, d2, reads⟩ := s
  cases conn with
  | refused => cases h; rfl
  | stalled => cases h; rfl
  | ok =>
    cases hsLen with
    | timeout => cases h; rfl
    | eof => cases h; rfl
    | ok =>
      cases banner with
      | stalled => cases h
      | eof => cases h; rfl
      | ok => exact afterBanner_unavailable d1 d2 reads v c k h

/-- Witness for C4: a script whose requested-method response is a fault
envelope makes `gbx_call` return `None`. -/
theorem failures_collapse_to_unavailable_witness :
    runGbx ⟨ConnEv.ok, HsLenEv.ok, BannerEv.ok, DrainEv.ok, DrainEv.ok,
        [ReadEv.frame 0 0 0 128 (Envelope.success (Value.vBool true)),
         ReadEv.frame 0 0 0 128 (Envelope.fault 7 ("denied"))]⟩
      = GRun.done none false (some (FailKind.exn (ExnKind.appFault 7 ("denied"))))
    ∧ (none : Option Value) = none :=
  ⟨rfl,
   failures_collapse_to_unavailable
     ⟨ConnEv.ok, HsLenEv.ok, BannerEv.ok, DrainEv.ok, DrainEv.ok,
        [ReadEv.frame 0 0 0 128 (Envelope.success (Value.vBool true)),
         ReadEv.frame 0 0 0 128 (Envelope.fault 7 ("denied"))]⟩
     none false (FailKind.exn (ExnKind.appFault 7 ("denied"))) rfl⟩

/-- C7 evidence: `writer.close()` (line 76) is reached only when both calls
return without raising, because the blanket `except Exception` (lines 78-79)
returns directly.  On three failure paths that begin with a successfully
opened connection — a timed-out handshake length read, a malformed envelope
in the `Authenticate` response, and a fault envelope in the requested
method's response — the invocation ends with the socket not closed
(`closed = false`), contradicting "closed regardless of outcome"; only the
success and frame-budget paths close it (`closed = true`). -/
theorem socket_close_skipped_on_exception :
    runGbx ⟨ConnEv.ok, HsLenEv.timeout, BannerEv.ok, DrainEv.ok, DrainEv.ok, []⟩
      = GRun.done none false (some (FailKind.exn ExnKind.hsLenTimeout))
    ∧ runGbx ⟨ConnEv.ok, HsLenEv.ok, BannerEv.ok, DrainEv.ok, DrainEv.ok,
        [ReadEv.frame 0 0 0 128 Envelope.malformed]⟩
      = GRun.done none false (some (FailKind.exn ExnKind.decodeError))
    ∧ runGbx ⟨ConnEv.ok, HsLenEv.ok, BannerEv.ok, DrainEv.ok, DrainEv.ok,
        [ReadEv.frame 0 0 0 128 (Envelope.success (Value.vBool true)),
         ReadEv.frame 0 0 0 128 (Envelope.fault 1 ("f"))]⟩
      = GRun.done none false (some (FailKind.exn (ExnKind.appFault 1 ("f"))))
    ∧ runGbx ⟨ConnEv.ok, HsLenEv.ok, BannerEv.ok, DrainEv.ok, DrainEv.ok,
        (List.replicate 20 (ReadEv.frame 0 0 0 0 Envelope.malformed))⟩
      = GRun.done none true (some FailKind.budget) :=
  ⟨rfl, rfl, rfl, rfl⟩

/-- C8 evidence: the handshake banner read (line 48) and the post-write
`writer.drain()` (line 58) are not wrapped in `asyncio.wait_for`, so a
server that stalls at either point blocks the coroutine forever; the other
blocking points are guarded, so a server that goes silent before the banner
turns into a caught `TimeoutError` and `None`. -/
theorem unguarded_blocking_points_hang :
    runGbx ⟨ConnEv.ok, HsLenEv.ok, BannerEv.stalled, DrainEv.ok, DrainEv.ok, []⟩
      = GRun.hang
    ∧ runGbx ⟨ConnEv.ok, HsLenEv.ok, BannerEv.ok, DrainEv.stalled, DrainEv.ok, []⟩
      = GRun.hang
    ∧ runGbx ⟨ConnEv.ok, HsLenEv.timeout, BannerEv.ok, DrainEv.ok, DrainEv.ok, []⟩
      = GRun.done none false (some (FailKind.exn ExnKind.hsLenTimeout)) :=
  ⟨rfl, rfl, rfl⟩

/-- C3: every published snapshot is either fully populated (all four fields
present) or exactly the canonical empty value, and a tick on which the
current-map call or the game-info call is unavailable, or a step raised,
publishes the canonical empty snapshot — overwriting whatever any earlier
ticks had published. -/
theorem snapshot_all_or_nothing (st0 : PollState) (status0 : StatusDict)
    (ticks : List TickIn) (t : TickIn)
    (hfail : t.current = none ∨ t.gameInfo = none ∨ t.exc = true) :
    (∀ (st : PollState) (u : TickIn),
      (pollTick st u).2 = emptyStatus
      ∨ (((pollTick st u).2).current_map.isSome = true
        ∧ ((pollTick st u).2).next_map.isSome = true
        ∧ ((pollTick st u).2).time_remaining.isSome = true
        ∧ ((pollTick st u).2).time_limit.isSome = true))
    ∧ (pollSteps st0 status0 (ticks ++ [t])).2 = emptyStatus := by
  constructor
  · intro st u
    by_cases he : u.exc
    · left
      simp [pollTick, he]
    · rcases hc : u.current with _ | cur
      · left
        simp [pollTick, he, hc]
      · rcases hg : u.gameInfo with _ | gi
        · left
          simp [pollTick, he, hc, hg]
        · right
          refine ⟨?_, ?_, ?_, ?_⟩ <;> simp [pollTick, he, hc, hg]
  · rw [pollSteps_append]
    by_cases he : t.exc
    · simp [pollTick, he]
    · rcases hfail with hc | hg | hx
      · rcases hg : t.gameInfo with _ | gi <;> simp [pollTick, he, hc, hg]
      · rcases hc : t.current with _ | cur <;> simp [pollTick, he, hc, hg]
      · exact absurd hx (by simp [he])

/-- Witness for C3: after a tick that published a fully populated snapshot,
a tick whose current-map call is unavailable publishes the canonical empty
snapshot. -/
theorem snapshot_all_or_nothing_witness :
    ((none : Option ChallengeInfo) = none
      ∨ (some (GameInfo.mk (some 90000))) = none ∨ false = true)
    ∧ (pollSteps ⟨"", 0⟩ emptyStatus
        ([⟨some ⟨some ("A"), some ("MapA")⟩, none, some ⟨some 90000⟩, false, 5⟩]
          ++ [⟨none, none, some ⟨some 90000⟩, false, 10⟩])).2
      = emptyStatus :=
  ⟨Or.inl rfl,
   (snapshot_all_or_nothing ⟨"", 0⟩ emptyStatus
      [⟨some ⟨some ("A"), some ("MapA")⟩, none, some ⟨some 90000⟩, false, 5⟩]
      ⟨none, none, some ⟨some 90000⟩, false, 10⟩ (Or.inl rfl)).2⟩

/-- C6: on a tick that reaches the map-change check (both calls truthy, no
exception), the poller state is reset to the observed uid and the current
instant exactly when the observed uid differs from the last observed one,
and is left unchanged otherwise; on a tick that does not reach the check,
the state is never touched.  Consequently two ticks with uids "A" then "B"
under a 90-second time limit give `time_remaining = 90` on the second tick,
whose race start is the second tick's instant. -/
theorem map_change_resets_timer :
    (∀ (st : PollState) (cur : ChallengeInfo) (gi : GameInfo)
        (nm : Option ChallengeInfo) (now : ℚ),
      (cur.uidField.getD "" ≠ st.lastMapUid →
        (pollTick st ⟨some cur, nm, some gi, false, now⟩).1
          = ⟨cur.uidField.getD "", now⟩)
      ∧ (cur.uidField.getD "" = st.lastMapUid →
        (pollTick st ⟨some cur, nm, some gi, false, now⟩).1 = st))
    ∧ (∀ (st : PollState) (t : TickIn),
        t.current = none ∨ t.gameInfo = none ∨ t.exc = true →
        (pollTick st t).1 = st)
    ∧ (∀ (t0 t1 : ℚ) (nm0 nm1 : Option ChallengeInfo) (nameA nameB : Option String),
        (pollTick
            (pollTick ⟨"", 0⟩
              ⟨some ⟨some ("A"), nameA⟩, nm0, some ⟨some 90000⟩, false, t0⟩).1
            ⟨some ⟨some ("B"), nameB⟩, nm1, some ⟨some 90000⟩, false, t1⟩).1.mapStartTime
          = t1
        ∧ ((pollTick
            (pollTick ⟨"", 0⟩
              ⟨some ⟨some ("A"), nameA⟩, nm0, some ⟨some 90000⟩, false, t0⟩).1
            ⟨some ⟨some ("B"), nameB⟩, nm1, some ⟨some 90000⟩, false, t1⟩).2).time_remaining
          = some 90) := by
  refine ⟨?_, ?_, ?_⟩
  · intro st cur gi nm now
    constructor
    · intro h
      simp [pollTick, h]
    · intro h
      simp [pollTick, h]
  · intro st t hfail
    by_cases he : t.exc
    · simp [pollTick, he]
    · rcases hfail with hc | hg | hx
      · rcases hg : t.gameInfo with _ | gi <;> simp [pollTick, he, hc, hg]
      · rcases hc : t.current with _ | cur <;> simp [pollTick, he, hc, hg]
      · exact absurd hx (by simp [he])
  · intro t0 t1 nm0 nm1 nameA nameB
    have hst1 : (pollTick ⟨"", 0⟩
        ⟨some ⟨some ("A"), nameA⟩, nm0, some ⟨some 90000⟩, false, t0⟩).1
        = ⟨"A", t0⟩ := rfl
    rw [hst1]
    have helapsed : (if t1 ≠ 0 then t1 - t1 else 0) = (0 : ℚ) := by
      by_cases h1 : t1 = 0 <;> simp [h1]
    constructor
    · rfl
    · have hsnap : ((pollTick ⟨"A", t0⟩
          ⟨some ⟨some ("B"), nameB⟩, nm1, some ⟨some 90000⟩, false, t1⟩).2).time_remaining
          = some (pyTrunc (max 0 (((90000 : Int) : ℚ) / 1000
              - (if t1 ≠ 0 then t1 - t1 else 0)))) := rfl
      rw [hsnap, helapsed]
      have hrem : max (0 : ℚ) (((90000 : Int) : ℚ) / 1000 - 0) = 90 := by
        norm_num
      rw [hrem]
      have h90 : pyTrunc (90 : ℚ) = 90 := rfl
      rw [h90]

/-- Witness for C6: concrete instants for the two-tick scenario, and the
reset/no-reset dichotomy at a concrete changed uid. -/
theorem map_change_resets_timer_witness :
    (("B" : String) ≠ "A"
      ∧ (pollTick ⟨"A", 3⟩
          ⟨some ⟨some ("B"), none⟩, none, some ⟨some 90000⟩, false, 7⟩).1
        = ⟨"B", 7⟩)
    ∧ ((pollTick
          (pollTick ⟨"", 0⟩
            ⟨some ⟨some ("A"), none⟩, none, some ⟨some 90000⟩, false, 3⟩).1
          ⟨some ⟨some ("B"), none⟩, none, some ⟨some 90000⟩, false, 200⟩).2).time_remaining
      = some 90 :=
  ⟨⟨by decide,
    (map_change_resets_timer.1 ⟨"A", 3⟩ ⟨some ("B"), none⟩ ⟨some 90000⟩ none 7).1
      (by decide)⟩,
   (map_change_resets_timer.2.2 3 200 none none none none).2⟩

/-- C10: when the current-map and game-info calls both produce values but
the next-map call is unavailable, the tick still publishes a fully
populated snapshot whose next-map field is the empty string, the other
fields being derived normally. -/
theorem next_map_unavailable_still_populated (st : PollState)
    (cur : ChallengeInfo) (gi : GameInfo) (now : ℚ) :
    ((pollTick st ⟨some cur, none, some gi, false, now⟩).2).next_map = some ("")
    ∧ ((pollTick st ⟨some cur, none, some gi, false, now⟩).2).current_map
        = some (stripTmFormatting (cur.nameField.getD ""))
    ∧ ((pollTick st ⟨some cur, none, some gi, false, now⟩).2).time_remaining.isSome
        = true
    ∧ ((pollTick st ⟨some cur, none, some gi, false, now⟩).2).time_limit.isSome
        = true
    ∧ (pollTick st ⟨some cur, none, some gi, false, now⟩).2 ≠ emptyStatus := by
  refine ⟨rfl, rfl, rfl, rfl, ?_⟩
  intro h
  have hcm := congrArg StatusDict.current_map h
  simp only [pollTick, emptyStatus] at hcm
  exact Option.noConfusion hcm

end TLB
